import Mathlib

/-!
Verification development for the parking-spot reservation system.

The definitions below are a shallow embedding of the server-side core of the
repository: the in-memory store (`server/storage.ts`, class `MemStorage`) and
the Express route handlers for bookings (`registerRoutes`).

Modelling conventions:
* The JavaScript `Map<number, T>` collections become Lean lists kept in
  insertion order (which is exactly the iteration order of a JS `Map`);
  `Map.get`/`Map.set` on an existing key become `List.find?` / an id-keyed
  `List.map` replacement.
* Dates stay strings (`YYYY-MM-DD`); they are only ever compared for equality.
* Clock times ("HH:MM" strings) are represented in parsed form: a pair of an
  hour (< 24) and a minute (< 60).  `padStart`-rendering followed by
  `split(":").map(Number)` is the identity on this data, so nothing is lost.
  The `Date.getTime()` values that the overlap comparison uses differ from
  minutes-since-midnight only by a per-call affine shift, so comparisons of
  `getTime()` values are embedded as comparisons of minute counts.
* `doublePrecision` prices become ℚ; every price operation appearing in the
  embedded code (multiplication by a small integer count of hours, summation)
  is exact in the source's binary64 for the magnitudes involved.
* The ambient wall clock (`new Date()` used for `createdAt` timestamps, the
  dashboard's `today`) is passed in as an explicit parameter.
* `bcrypt` hashing is external to the repository; passwords are stored as
  given (no claim concerns them).
-/

/-- Spot type enumeration from `shared/schema.ts`. -/
inductive SpotType where
  | STANDARD
  | HANDICAPPED
  | ELECTRIC
  | COMPACT
deriving DecidableEq

/-- Booking status enumeration from `shared/schema.ts`. -/
inductive BookingStatus where
  | PENDING
  | CONFIRMED
  | COMPLETED
  | CANCELLED
deriving DecidableEq

/-- A parsed "HH:MM" clock time (the result of `split(":").map(Number)` on a
well-formed 24-hour time string). -/
structure HM where
  hours : Fin 24
  minutes : Fin 60
deriving DecidableEq

/-- Minutes since midnight; the embedding of `Date.setHours(h, m, 0, 0)`
followed by `getTime()` (up to the per-call affine shift by the current day's
epoch base, which cancels in every comparison the code makes). -/
def HM.toMin (t : HM) : Nat := t.hours.val * 60 + t.minutes.val

/-- The route handler's end-time computation:
`endDate.setHours(startDate.getHours() + duration)` followed by rendering
`getHours()`/`getMinutes()`, i.e. hour arithmetic that wraps modulo 24 while
the minutes are kept. -/
def HM.addHours (t : HM) (d : Nat) : HM :=
  ⟨⟨(t.hours.val + d) % 24, Nat.mod_lt _ (by omega)⟩, t.minutes⟩

/-- `users` row from `shared/schema.ts`. -/
structure User where
  id : Nat
  name : String
  email : String
  password : String
  isAdmin : Bool
  isActive : Bool
  createdAt : Nat
deriving DecidableEq

/-- `parking_spots` row from `shared/schema.ts`. -/
structure ParkingSpot where
  id : Nat
  spotNumber : String
  level : Nat
  type : SpotType
  isAvailable : Bool
  pricePerHour : ℚ
deriving DecidableEq

/-- `bookings` row from `shared/schema.ts` (the optional enrichment fields
`user`/`spot` are presentation only — they are recomputed lookups, never
stored — and are omitted). -/
structure Booking where
  id : Nat
  userId : Nat
  spotId : Nat
  date : String
  startTime : HM
  endTime : HM
  duration : Nat
  totalPrice : ℚ
  status : BookingStatus
  createdAt : Nat
deriving DecidableEq

/-- `InsertUser` (insert schema: all columns except `id`/`createdAt`;
`isAdmin`/`isActive` may be omitted, the store then applies
`|| false` / `!== undefined ? _ : true`). -/
structure InsertUser where
  name : String
  email : String
  password : String
  isAdmin : Option Bool
  isActive : Option Bool
deriving DecidableEq

/-- `InsertParkingSpot` (insert schema: all columns except `id`;
`isAvailable` may be omitted, the store then defaults it to `true`). -/
structure InsertParkingSpot where
  spotNumber : String
  level : Nat
  type : SpotType
  isAvailable : Option Bool
  pricePerHour : ℚ
deriving DecidableEq

/-- `InsertBooking` (insert schema: all columns except `id`/`createdAt`). -/
structure InsertBooking where
  userId : Nat
  spotId : Nat
  date : String
  startTime : HM
  endTime : HM
  duration : Nat
  totalPrice : ℚ
  status : BookingStatus
deriving DecidableEq

/-- The private state of `MemStorage`. -/
structure MemStorage where
  users : List User
  parkingSpots : List ParkingSpot
  bookings : List Booking
  userIdCounter : Nat
  spotIdCounter : Nat
  bookingIdCounter : Nat
deriving DecidableEq

/-- The state the `MemStorage` constructor starts from, before seeding. -/
def MemStorage.blank : MemStorage :=
  { users := [], parkingSpots := [], bookings := []
  , userIdCounter := 1, spotIdCounter := 1, bookingIdCounter := 1 }

/-- `MemStorage.getUser`. -/
def MemStorage.getUser (s : MemStorage) (id : Nat) : Option User :=
  s.users.find? (fun u => u.id == id)

/-- `MemStorage.createUser` (`now` is the ambient clock for `createdAt`;
hashing of the password is external and modelled as the identity). -/
def MemStorage.createUser (s : MemStorage) (d : InsertUser) (now : Nat) :
    User × MemStorage :=
  let u : User :=
    { id := s.userIdCounter, name := d.name, email := d.email
    , password := d.password, isAdmin := d.isAdmin.getD false
    , isActive := d.isActive.getD true, createdAt := now }
  (u, { s with users := s.users ++ [u], userIdCounter := s.userIdCounter + 1 })

/-- `MemStorage.getParkingSpot` (`Map.get` keyed by id). -/
def MemStorage.getParkingSpot (s : MemStorage) (id : Nat) : Option ParkingSpot :=
  s.parkingSpots.find? (fun sp => sp.id == id)

/-- `MemStorage.getParkingSpotByNumber`. -/
def MemStorage.getParkingSpotByNumber (s : MemStorage) (n : String) :
    Option ParkingSpot :=
  s.parkingSpots.find? (fun sp => sp.spotNumber == n)

/-- `MemStorage.createParkingSpot`. -/
def MemStorage.createParkingSpot (s : MemStorage) (d : InsertParkingSpot) :
    ParkingSpot × MemStorage :=
  let sp : ParkingSpot :=
    { id := s.spotIdCounter, spotNumber := d.spotNumber, level := d.level
    , type := d.type, isAvailable := d.isAvailable.getD true
    , pricePerHour := d.pricePerHour }
  (sp, { s with parkingSpots := s.parkingSpots ++ [sp],
                spotIdCounter := s.spotIdCounter + 1 })

/-- `MemStorage.updateParkingSpot` applied with a partial record containing
only `isAvailable` (the shape of every call in the embedded code paths: the
constructor's demo seeding).  `Map.set` on the existing key is an in-place,
order-preserving replacement; a missing id leaves the store untouched. -/
def MemStorage.setSpotAvailability (s : MemStorage) (id : Nat) (avail : Bool) :
    MemStorage :=
  { s with parkingSpots := s.parkingSpots.map fun sp =>
      if sp.id == id then { sp with isAvailable := avail } else sp }

/-- `MemStorage.getAvailableParkingSpots(date, startTime, duration)`.
The request window's end instant is
`endDate.setHours(startDate.getHours() + duration)` — hour addition on
`getTime()` values *without* any modulo, since `setHours` past 23 rolls the
date forward; each booking's interval is re-parsed from its stored
`startTime`/`endTime` strings. -/
def getAvailableParkingSpots (s : MemStorage) (date : String) (startTime : HM)
    (duration : Nat) : List ParkingSpot :=
  let ourStart := startTime.toMin
  let ourEnd := (startTime.hours.val + duration) * 60 + startTime.minutes.val
  s.parkingSpots.filter fun spot =>
    spot.isAvailable &&
      ((s.bookings.filter fun b =>
          b.spotId == spot.id && b.date == date &&
          b.status != BookingStatus.CANCELLED &&
          (decide (ourStart < b.endTime.toMin) &&
           decide (b.startTime.toMin < ourEnd))).length == 0)

/-- The record `MemStorage.createBooking` builds and inserts. -/
def MemStorage.mkBooking (s : MemStorage) (d : InsertBooking) (now : Nat) :
    Booking :=
  { id := s.bookingIdCounter, userId := d.userId, spotId := d.spotId
  , date := d.date, startTime := d.startTime, endTime := d.endTime
  , duration := d.duration, totalPrice := d.totalPrice, status := d.status
  , createdAt := now }

/-- `MemStorage.createBooking`: assigns the next counter value as id, inserts
the record verbatim, and returns it.  (The returned copy is additionally
enriched with `user`/`spot` lookups in the source; the stored record is as
built here.)  There is no validation of any kind at this layer. -/
def MemStorage.createBooking (s : MemStorage) (d : InsertBooking) (now : Nat) :
    Booking × MemStorage :=
  (s.mkBooking d now,
   { s with bookings := s.bookings ++ [s.mkBooking d now],
            bookingIdCounter := s.bookingIdCounter + 1 })

/-- `MemStorage.updateBooking` applied with a partial record containing only
`status` (the shape of the only mutating call in the embedded code paths:
`deleteBooking`).  The merge keeps every other field, including the protected
`id` and `createdAt`. -/
def MemStorage.updateBookingStatus (s : MemStorage) (id : Nat)
    (st : BookingStatus) : MemStorage :=
  { s with bookings := s.bookings.map fun b =>
      if b.id == id then { b with status := st } else b }

/-- `MemStorage.deleteBooking`: a soft delete — looks the booking up and, when
present, flips its status to CANCELLED via `updateBooking`. -/
def MemStorage.deleteBooking (s : MemStorage) (id : Nat) : Bool × MemStorage :=
  match s.bookings.find? (fun b => b.id == id) with
  | none => (false, s)
  | some _ => (true, s.updateBookingStatus id BookingStatus.CANCELLED)

/-- The zod validation of `POST /api/bookings`:
`insertBookingSchema.pick({spotId, date, startTime, duration}).safeParse`.
The picked schema constrains only the presence and primitive types of the four
fields — which the Lean types of the route's arguments already guarantee —
and places no constraint on their values (in particular none on `duration`),
so it accepts every typed request. -/
def validateBookingInput (_spotId : Nat) (_date : String) (_startTime : HM)
    (_duration : Nat) : Bool := true

/-- Typed outcome of `POST /api/bookings` (400 on schema failure, 404, 400
"not available for the selected time slot", 201 with the booking). -/
inductive CreateResult where
  | validationError
  | notFound
  | conflict
  | created (b : Booking)
deriving DecidableEq

/-- The booking carried by a `created` outcome, if any. -/
def CreateResult.createdBooking : CreateResult → Option Booking
  | .created b => some b
  | _ => none

/-- The `POST /api/bookings` handler: validate the body, check the spot
exists (else 404), recompute availability for the requested window and check
the spot is in it (else conflict), then compute the end time (hour addition
rendered back through `getHours()`, i.e. modulo 24), the total price
`spot.pricePerHour * duration`, and insert a CONFIRMED booking. -/
def createBookingRoute (s : MemStorage) (userId spotId : Nat) (date : String)
    (startTime : HM) (duration : Nat) (now : Nat) : CreateResult × MemStorage :=
  if validateBookingInput spotId date startTime duration then
    match s.getParkingSpot spotId with
    | none => (CreateResult.notFound, s)
    | some spot =>
      if (getAvailableParkingSpots s date startTime duration).any
          (fun sp => sp.id == spotId) then
        (CreateResult.created
          (s.createBooking
            { userId := userId, spotId := spotId, date := date
            , startTime := startTime, endTime := startTime.addHours duration
            , duration := duration
            , totalPrice := spot.pricePerHour * (duration : ℚ)
            , status := BookingStatus.CONFIRMED } now).1,
         (s.createBooking
            { userId := userId, spotId := spotId, date := date
            , startTime := startTime, endTime := startTime.addHours duration
            , duration := duration
            , totalPrice := spot.pricePerHour * (duration : ℚ)
            , status := BookingStatus.CONFIRMED } now).2)
      else (CreateResult.conflict, s)
  else (CreateResult.validationError, s)

/-- Typed outcome of `DELETE /api/bookings/:id` (404, 403, 400 with the
current status in the message, 200, 500). -/
inductive CancelResult where
  | notFound
  | forbidden
  | invalidState (current : BookingStatus)
  | ok
  | storeFailure
deriving DecidableEq

/-- The `DELETE /api/bookings/:id` handler: look the booking up (else 404),
require the requester to own it or be admin (else 403), require the status to
be neither COMPLETED nor CANCELLED (else 400 naming the current status), then
soft-delete through the store. -/
def cancelBookingRoute (s : MemStorage) (bookingId requesterId : Nat)
    (requesterIsAdmin : Bool) : CancelResult × MemStorage :=
  match s.bookings.find? (fun b => b.id == bookingId) with
  | none => (CancelResult.notFound, s)
  | some b =>
    if b.userId != requesterId && !requesterIsAdmin then
      (CancelResult.forbidden, s)
    else if b.status == BookingStatus.COMPLETED ||
        b.status == BookingStatus.CANCELLED then
      (CancelResult.invalidState b.status, s)
    else
      if (s.deleteBooking bookingId).1 then
        (CancelResult.ok, (s.deleteBooking bookingId).2)
      else
        (CancelResult.storeFailure, (s.deleteBooking bookingId).2)

/-- The fields of `MemStorage.getDashboardStats` the specification's claims
concern (the remaining presentation fields, `occupancyByHour` and
`recentBookings`, are not needed here). -/
structure DashboardStats where
  totalUsers : Nat
  activeBookings : Nat
  occupiedSpots : Nat
  revenueToday : ℚ
deriving DecidableEq

/-- `MemStorage.getDashboardStats` (`today` is the ambient
`new Date().toISOString().split('T')[0]`).  Revenue today is the `reduce`
(left fold from 0) of `totalPrice` over the bookings dated today whose status
is not CANCELLED. -/
def getDashboardStats (s : MemStorage) (today : String) : DashboardStats :=
  { totalUsers := s.users.length
  , activeBookings := (s.bookings.filter fun b =>
      b.status == BookingStatus.CONFIRMED ||
      b.status == BookingStatus.PENDING).length
  , occupiedSpots := (s.parkingSpots.filter fun sp => !sp.isAvailable).length
  , revenueToday :=
      ((s.bookings.filter fun b =>
          b.date == today && b.status != BookingStatus.CANCELLED).map
        (fun b => b.totalPrice)).foldl (· + ·) 0 }

/-- The twelve spots the `MemStorage` constructor seeds (two statically
bounded loops, unrolled): A1–A6 on level 1, B1–B6 on level 2, B3 handicapped
at 2.5/hr, everything else standard at 3.0/hr. -/
def seedSpots : List InsertParkingSpot :=
  [ ⟨"A1", 1, SpotType.STANDARD, some true, 3⟩
  , ⟨"A2", 1, SpotType.STANDARD, some true, 3⟩
  , ⟨"A3", 1, SpotType.STANDARD, some true, 3⟩
  , ⟨"A4", 1, SpotType.STANDARD, some true, 3⟩
  , ⟨"A5", 1, SpotType.STANDARD, some true, 3⟩
  , ⟨"A6", 1, SpotType.STANDARD, some true, 3⟩
  , ⟨"B1", 2, SpotType.STANDARD, some true, 3⟩
  , ⟨"B2", 2, SpotType.STANDARD, some true, 3⟩
  , ⟨"B3", 2, SpotType.HANDICAPPED, some true, 5 / 2⟩
  , ⟨"B4", 2, SpotType.STANDARD, some true, 3⟩
  , ⟨"B5", 2, SpotType.STANDARD, some true, 3⟩
  , ⟨"B6", 2, SpotType.STANDARD, some true, 3⟩ ]

/-- Insert a batch of spots in order. -/
def MemStorage.addSpots (s : MemStorage) (l : List InsertParkingSpot) :
    MemStorage :=
  l.foldl (fun st d => (st.createParkingSpot d).2) s

/-- The constructor's demo step: look a spot up by number and mark it
administratively unavailable. -/
def MemStorage.markUnavailableByNumber (s : MemStorage) (n : String) :
    MemStorage :=
  match s.getParkingSpotByNumber n with
  | none => s
  | some sp => s.setSpotAvailability sp.id false

/-- The seeded initial state built by the `MemStorage` constructor: the admin
user, the twelve spots, then A3, B2 and B6 flagged unavailable. -/
def seededStorage : MemStorage :=
  let s1 := (MemStorage.blank.createUser
    { name := "Admin User", email := "admin@parksmart.com"
    , password := "admin123", isAdmin := some true, isActive := some true } 0).2
  let s2 := s1.addSpots seedSpots
  ((s2.markUnavailableByNumber "A3").markUnavailableByNumber
      "B2").markUnavailableByNumber "B6"

/-- A `POST /api/bookings` request together with the ambient clock value at
which it is handled. -/
structure BookingRequest where
  userId : Nat
  spotId : Nat
  date : String
  startTime : HM
  duration : Nat
  now : Nat
deriving DecidableEq

/-- Run a sequence of booking requests through the route handler, threading
the store state (failed requests leave it unchanged). -/
def execCreates (s : MemStorage) (reqs : List BookingRequest) : MemStorage :=
  reqs.foldl
    (fun st r =>
      (createBookingRoute st r.userId r.spotId r.date r.startTime r.duration
        r.now).2) s

/-- Half-open interval overlap exactly as the source tests it:
`[aS, aE)` and `[bS, bE)` overlap iff `aS < bE && aE > bS`. -/
def hmOverlap (aS aE bS bE : Nat) : Prop := aS < bE ∧ bS < aE

instance (aS aE bS bE : Nat) : Decidable (hmOverlap aS aE bS bE) := by
  unfold hmOverlap; infer_instance

/-- A booking counts against availability while PENDING or CONFIRMED. -/
def activeStatus (st : BookingStatus) : Prop :=
  st = BookingStatus.PENDING ∨ st = BookingStatus.CONFIRMED

instance (st : BookingStatus) : Decidable (activeStatus st) := by
  unfold activeStatus; infer_instance

/-- Two bookings are compatible when, if they are on the same spot and date
and both active, their stored `[startTime, endTime)` intervals do not overlap
under the half-open test.  This relation is symmetric. -/
def noOverlapPair (b1 b2 : Booking) : Prop :=
  b1.spotId = b2.spotId → b1.date = b2.date →
  activeStatus b1.status → activeStatus b2.status →
  ¬ hmOverlap b1.startTime.toMin b1.endTime.toMin
      b2.startTime.toMin b2.endTime.toMin

/-- The no-overlap store invariant: every pair of distinct bookings is
compatible.  (`List.Pairwise` relates every earlier entry to every later one;
together with the symmetry of `noOverlapPair` this covers every pair of
distinct bookings in the store.) -/
def NoOverlapInv (s : MemStorage) : Prop :=
  s.bookings.Pairwise noOverlapPair

instance (b1 b2 : Booking) : Decidable (noOverlapPair b1 b2) := by
  unfold noOverlapPair; infer_instance

instance (s : MemStorage) : Decidable (NoOverlapInv s) := by
  unfold NoOverlapInv; infer_instance

/-! ### Concrete states used in the scenario parts of the claims -/

/-- The seeded spot A1, as stored. -/
def spotA1 : ParkingSpot := ⟨1, "A1", 1, SpotType.STANDARD, true, 3⟩

/-- Result and state of booking spot 1 on 2024-06-01 from 10:00 for two hours
in the seeded store (handled at clock value 100). -/
def bookA1 : CreateResult × MemStorage :=
  createBookingRoute seededStorage 1 1 "2024-06-01" ⟨10, 0⟩ 2 100

/-- The booking record that request persists. -/
def bookA1b : Booking :=
  { id := 1, userId := 1, spotId := 1, date := "2024-06-01"
  , startTime := ⟨10, 0⟩, endTime := ⟨12, 0⟩, duration := 2, totalPrice := 6
  , status := BookingStatus.CONFIRMED, createdAt := 100 }

/-- That booking after cancellation. -/
def bookA1c : Booking := { bookA1b with status := BookingStatus.CANCELLED }

/-- Result and state of the owner cancelling that booking. -/
def cancelA1 : CancelResult × MemStorage :=
  cancelBookingRoute bookA1.2 1 1 false

/-- Result and state of booking spot 1 from 23:00 for two hours in the seeded
store: the stored end time wraps past midnight to 01:00. -/
def book23 : CreateResult × MemStorage :=
  createBookingRoute seededStorage 1 1 "2024-06-01" ⟨23, 0⟩ 2 100

/-- Result and state of booking spot 1 from 10:00 for zero hours in the
seeded store. -/
def book0 : CreateResult × MemStorage :=
  createBookingRoute seededStorage 1 1 "2024-06-01" ⟨10, 0⟩ 0 100

/-- A store with one CONFIRMED booking priced 6.0 and one CANCELLED booking
priced 9.0, both dated 2024-06-01. -/
def demoStore : MemStorage :=
  { users := [⟨1, "Admin User", "admin@parksmart.com", "admin123", true, true, 0⟩]
  , parkingSpots := [spotA1]
  , bookings :=
      [ ⟨1, 1, 1, "2024-06-01", ⟨10, 0⟩, ⟨12, 0⟩, 2, 6, BookingStatus.CONFIRMED, 100⟩
      , ⟨2, 1, 1, "2024-06-01", ⟨13, 0⟩, ⟨16, 0⟩, 3, 9, BookingStatus.CANCELLED, 101⟩ ]
  , userIdCounter := 2, spotIdCounter := 2, bookingIdCounter := 3 }

/-! ### Helper lemmas about the availability computation -/

theorem addHours_toMin_le (t : HM) (d : Nat) :
    (t.addHours d).toMin ≤ t.toMin + 60 * d := by
  unfold HM.addHours HM.toMin
  simp only
  have h1 : (t.hours.val + d) % 24 ≤ t.hours.val + d := Nat.mod_le _ _
  have h2 : (t.hours.val + d) % 24 * 60 ≤ (t.hours.val + d) * 60 :=
    Nat.mul_le_mul_right 60 h1
  omega

theorem addHours_toMin_eq (t : HM) (d : Nat) (h : t.hours.val + d < 24) :
    (t.addHours d).toMin = t.toMin + 60 * d := by
  unfold HM.addHours HM.toMin
  simp only [Nat.mod_eq_of_lt h]
  ring

/-- Characterization of `getAvailableParkingSpots`: a spot of the store is in
the result iff its administrative flag is set and no non-cancelled booking for
it on that date overlaps the requested window `[start, start + duration)`
under the half-open test. -/
theorem mem_getAvailableParkingSpots {s : MemStorage} {date : String} {st : HM}
    {d : Nat} {sp : ParkingSpot} :
    sp ∈ getAvailableParkingSpots s date st d ↔
      sp ∈ s.parkingSpots ∧ sp.isAvailable = true ∧
        ∀ b ∈ s.bookings, b.spotId = sp.id → b.date = date →
          b.status ≠ BookingStatus.CANCELLED →
          ¬ hmOverlap st.toMin (st.toMin + 60 * d)
              b.startTime.toMin b.endTime.toMin := by
  have harith : (st.hours.val + d) * 60 + st.minutes.val = st.toMin + 60 * d := by
    unfold HM.toMin; ring
  unfold getAvailableParkingSpots
  rw [List.mem_filter]
  simp only [harith, Bool.and_eq_true, beq_iff_eq, List.length_eq_zero,
    List.filter_eq_nil_iff, Bool.and_eq_true, bne_iff_ne, ne_eq,
    decide_eq_true_eq, hmOverlap, not_and, and_congr_right_iff]
  intro _ _
  exact ⟨fun hno b hb hsp hdate hst => hno b hb ⟨⟨hsp, hdate⟩, hst⟩,
         fun hno b hb hc => hno b hb hc.1.1 hc.1.2 hc.2⟩

/-- If the route's availability test accepted `spotId`, no non-cancelled
booking for `spotId` on `date` overlaps the requested window. -/
theorem any_avail_no_overlap {s : MemStorage} {date : String} {st : HM}
    {d spotId : Nat}
    (h : (getAvailableParkingSpots s date st d).any
        (fun sp => sp.id == spotId) = true) :
    ∀ b ∈ s.bookings, b.spotId = spotId → b.date = date →
      b.status ≠ BookingStatus.CANCELLED →
      ¬ hmOverlap st.toMin (st.toMin + 60 * d)
          b.startTime.toMin b.endTime.toMin := by
  rw [List.any_eq_true] at h
  obtain ⟨sp, hsp, hid⟩ := h
  rw [beq_iff_eq] at hid
  have hmem := mem_getAvailableParkingSpots.mp hsp
  intro b hb h1 h2 h3
  exact hmem.2.2 b hb (h1.trans hid.symm) h2 h3

/-- Inversion of a successful `POST /api/bookings`: the spot was found, the
availability test passed, and the created booking and new store state are
exactly the ones the handler builds. -/
theorem createBookingRoute_created {s : MemStorage} {u spotId : Nat}
    {date : String} {st : HM} {d now : Nat} {b : Booking} {s2 : MemStorage}
    (h : createBookingRoute s u spotId date st d now =
      (CreateResult.created b, s2)) :
    ∃ spot, s.getParkingSpot spotId = some spot ∧
      (getAvailableParkingSpots s date st d).any
        (fun sp => sp.id == spotId) = true ∧
      b = { id := s.bookingIdCounter, userId := u, spotId := spotId
          , date := date, startTime := st, endTime := st.addHours d
          , duration := d, totalPrice := spot.pricePerHour * (d : ℚ)
          , status := BookingStatus.CONFIRMED, createdAt := now } ∧
      s2 = { s with bookings := s.bookings ++ [b],
                    bookingIdCounter := s.bookingIdCounter + 1 } := by
  unfold createBookingRoute at h
  simp only [validateBookingInput, if_true] at h
  cases hfind : s.getParkingSpot spotId with
  | none => rw [hfind] at h; exact absurd h (by simp)
  | some spot =>
    rw [hfind] at h
    dsimp only at h
    by_cases hav : (getAvailableParkingSpots s date st d).any
        (fun sp => sp.id == spotId) = true
    · rw [if_pos hav] at h
      unfold MemStorage.createBooking MemStorage.mkBooking at h
      simp only [Prod.mk.injEq, CreateResult.created.injEq] at h
      exact ⟨spot, rfl, hav, h.1.symm, by rw [← h.1]; exact h.2.symm⟩
    · rw [if_neg hav] at h
      exact absurd h (by simp)

/-- Direct computation of a successful `POST /api/bookings` from its two
passed preconditions. -/
theorem createBookingRoute_success {s : MemStorage} {u spotId : Nat}
    {date : String} {st : HM} {d now : Nat} {spot : ParkingSpot}
    (hspot : s.getParkingSpot spotId = some spot)
    (hav : (getAvailableParkingSpots s date st d).any
        (fun sp => sp.id == spotId) = true) :
    createBookingRoute s u spotId date st d now =
      (CreateResult.created
        (s.mkBooking
          { userId := u, spotId := spotId, date := date, startTime := st
          , endTime := st.addHours d, duration := d
          , totalPrice := spot.pricePerHour * (d : ℚ)
          , status := BookingStatus.CONFIRMED } now),
       { s with
         bookings := s.bookings ++
           [s.mkBooking
             { userId := u, spotId := spotId, date := date, startTime := st
             , endTime := st.addHours d, duration := d
             , totalPrice := spot.pricePerHour * (d : ℚ)
             , status := BookingStatus.CONFIRMED } now],
         bookingIdCounter := s.bookingIdCounter + 1 }) := by
  unfold createBookingRoute MemStorage.createBooking
  simp only [validateBookingInput, if_true, hspot, if_pos hav]

/-- Inversion of a successful `DELETE /api/bookings/:id`: the booking exists
and the new state is the status-flip of the old one. -/
theorem cancelBookingRoute_ok {s : MemStorage} {id reqId : Nat} {adm : Bool}
    {s2 : MemStorage}
    (h : cancelBookingRoute s id reqId adm = (CancelResult.ok, s2)) :
    (∃ b ∈ s.bookings, b.id = id) ∧
      s2 = s.updateBookingStatus id BookingStatus.CANCELLED := by
  unfold cancelBookingRoute at h
  cases hfind : s.bookings.find? (fun b => b.id == id) with
  | none => rw [hfind] at h; exact absurd h (by simp)
  | some b =>
    rw [hfind] at h
    dsimp only at h
    have hdel : s.deleteBooking id =
        (true, s.updateBookingStatus id BookingStatus.CANCELLED) := by
      unfold MemStorage.deleteBooking; rw [hfind]
    by_cases h1 : (b.userId != reqId && !adm) = true
    · rw [if_pos h1] at h; exact absurd h (by simp)
    · rw [if_neg h1] at h
      by_cases h2 : (b.status == BookingStatus.COMPLETED ||
          b.status == BookingStatus.CANCELLED) = true
      · rw [if_pos h2] at h; exact absurd h (by simp)
      · rw [if_neg h2, hdel] at h
        simp only [if_true, Prod.mk.injEq] at h
        refine ⟨⟨b, List.mem_of_find?_eq_some hfind, ?_⟩, h.2.symm⟩
        have := List.find?_some hfind
        simpa using this

/-- One route-level booking request preserves the no-overlap invariant: a
failure leaves the store unchanged, and a success appends a booking whose
stored interval passes the same half-open test the availability check just
ran (the stored end is the wrapped hour sum, which is never later than the
un-wrapped end instant the availability check used). -/
theorem NoOverlapInv_step (s : MemStorage) (u spotId : Nat) (date : String)
    (st : HM) (d now : Nat) (h : NoOverlapInv s) :
    NoOverlapInv (createBookingRoute s u spotId date st d now).2 := by
  unfold createBookingRoute
  simp only [validateBookingInput, if_true]
  cases hfind : s.getParkingSpot spotId with
  | none => exact h
  | some spot =>
    dsimp only
    by_cases hav : (getAvailableParkingSpots s date st d).any
        (fun sp => sp.id == spotId) = true
    · rw [if_pos hav]
      unfold MemStorage.createBooking MemStorage.mkBooking
      unfold NoOverlapInv at h ⊢
      dsimp only
      rw [List.pairwise_append]
      refine ⟨h, List.pairwise_singleton _ _, ?_⟩
      intro a ha nb hnb
      simp only [List.mem_singleton] at hnb
      subst hnb
      intro hspotEq hdateEq hact1 _
      rintro ⟨g1, g2⟩
      dsimp only at hspotEq hdateEq g1 g2
      have hstat : a.status ≠ BookingStatus.CANCELLED := by
        rcases hact1 with h1 | h1 <;> rw [h1] <;> intro hc <;> exact
          BookingStatus.noConfusion hc
      have hno := any_avail_no_overlap hav a ha hspotEq hdateEq hstat
      exact hno ⟨g2, lt_of_lt_of_le g1 (addHours_toMin_le st d)⟩
    · rw [if_neg hav]
      exact h

/-- The no-overlap invariant is preserved by any sequence of requests. -/
theorem NoOverlapInv_execCreates (reqs : List BookingRequest) :
    ∀ s : MemStorage, NoOverlapInv s → NoOverlapInv (execCreates s reqs) := by
  induction reqs with
  | nil => exact fun s h => h
  | cons r rest ih =>
    intro s h
    have h2 := NoOverlapInv_step s r.userId r.spotId r.date r.startTime
      r.duration r.now h
    unfold execCreates at ih ⊢
    rw [List.foldl_cons]
    exact ih _ h2

/-- The seeded initial state holds no bookings. -/
theorem seededStorage_no_overlap : NoOverlapInv seededStorage := by
  unfold NoOverlapInv
  rw [show seededStorage.bookings = [] from rfl]
  exact List.Pairwise.nil

/-! ### Claims -/

/-- C1: starting from the seeded initial state, after any sequence of
route-level `createBooking` requests, every pair of distinct bookings in the
store that share a spot and a date and are both PENDING or CONFIRMED have
non-overlapping stored `[startTime, endTime)` intervals under the half-open
test (`NoOverlapInv` relates every pair of distinct list entries, since
`noOverlapPair` is symmetric). -/
theorem C1_no_overlap_invariant (reqs : List BookingRequest) :
    NoOverlapInv (execCreates seededStorage reqs) :=
  NoOverlapInv_execCreates reqs seededStorage seededStorage_no_overlap

/-- Closed instance of C1 at a concrete three-request sequence. -/
theorem C1_no_overlap_invariant_witness :
    NoOverlapInv (execCreates seededStorage
      [⟨1, 1, "2024-06-01", ⟨10, 0⟩, 2, 100⟩,
       ⟨1, 1, "2024-06-01", ⟨11, 0⟩, 1, 101⟩,
       ⟨1, 1, "2024-06-01", ⟨12, 0⟩, 1, 102⟩]) :=
  C1_no_overlap_invariant _

/-- C2: a spot of the store is returned by `getAvailableParkingSpots` iff its
administrative availability flag is true and zero non-cancelled bookings for
it on that date overlap the requested window `[start, start + duration)`
under the half-open test (`[a,b)` meets `[c,d)` iff `a < d ∧ c < b`); in
particular an administratively-disabled spot is never returned.  The call is
embedded as a pure function of the store, so it cannot modify it. -/
theorem C2_available_spots_characterization (s : MemStorage) (date : String)
    (st : HM) (d : Nat) (sp : ParkingSpot) (hsp : sp ∈ s.parkingSpots) :
    sp ∈ getAvailableParkingSpots s date st d ↔
      sp.isAvailable = true ∧
        ∀ b ∈ s.bookings, b.spotId = sp.id → b.date = date →
          b.status ≠ BookingStatus.CANCELLED →
          ¬ hmOverlap st.toMin (st.toMin + 60 * d)
              b.startTime.toMin b.endTime.toMin := by
  rw [mem_getAvailableParkingSpots]
  exact ⟨fun h => ⟨h.2.1, h.2.2⟩, fun h => ⟨hsp, h.1, h.2⟩⟩

/-- Closed instance of C2 at spot A1 of the seeded store. -/
theorem C2_available_spots_characterization_witness :
    spotA1 ∈ seededStorage.parkingSpots ∧
      (spotA1 ∈ getAvailableParkingSpots seededStorage "2024-06-01" ⟨10, 0⟩ 2 ↔
        spotA1.isAvailable = true ∧
          ∀ b ∈ seededStorage.bookings, b.spotId = spotA1.id →
            b.date = "2024-06-01" → b.status ≠ BookingStatus.CANCELLED →
            ¬ hmOverlap (HM.toMin ⟨10, 0⟩) (HM.toMin ⟨10, 0⟩ + 60 * 2)
                b.startTime.toMin b.endTime.toMin) :=
  ⟨by with_unfolding_all decide,
   C2_available_spots_characterization seededStorage "2024-06-01" ⟨10, 0⟩ 2
     spotA1 (by with_unfolding_all decide)⟩

/-- C3: `POST /api/bookings` returns NOT_FOUND when the spot does not exist
and CONFLICT when the spot is not in the recomputed availability set, in that
order, leaving the store unchanged on either failure; concretely, after a
10:00 two-hour booking on spot 1, a request for 11:00 for one hour fails with
CONFLICT without touching the store, while a request for 12:00 for one hour
succeeds. -/
theorem C3_createBooking_failure_semantics :
    (∀ s : MemStorage, ∀ u spotId : Nat, ∀ date : String, ∀ st : HM,
      ∀ d now : Nat, s.getParkingSpot spotId = none →
      createBookingRoute s u spotId date st d now =
        (CreateResult.notFound, s)) ∧
    (∀ s : MemStorage, ∀ u spotId : Nat, ∀ date : String, ∀ st : HM,
      ∀ d now : Nat, ∀ spot : ParkingSpot,
      s.getParkingSpot spotId = some spot →
      (∀ sp ∈ getAvailableParkingSpots s date st d, sp.id ≠ spotId) →
      createBookingRoute s u spotId date st d now =
        (CreateResult.conflict, s)) ∧
    (bookA1.1.createdBooking.isSome = true ∧
     createBookingRoute bookA1.2 1 1 "2024-06-01" ⟨11, 0⟩ 1 101 =
       (CreateResult.conflict, bookA1.2) ∧
     (createBookingRoute bookA1.2 1 1 "2024-06-01" ⟨12, 0⟩ 1
        102).1.createdBooking.isSome = true) := by
  refine ⟨?_, ?_, ?_⟩
  · intro s u spotId date st d now h
    unfold createBookingRoute
    simp only [validateBookingInput, if_true, h]
  · intro s u spotId date st d now spot hspot hno
    have hany : (getAvailableParkingSpots s date st d).any
        (fun sp => sp.id == spotId) = false := by
      rw [List.any_eq_false]
      intro sp hsp
      simpa using hno sp hsp
    unfold createBookingRoute
    simp only [validateBookingInput, if_true, hspot, hany]
    rfl
  · with_unfolding_all decide

/-- Closed instance of C3's NOT_FOUND branch on the unseeded store. -/
theorem C3_createBooking_failure_semantics_witness :
    MemStorage.blank.getParkingSpot 1 = none ∧
      createBookingRoute MemStorage.blank 7 1 "2024-06-01" ⟨9, 0⟩ 1 50 =
        (CreateResult.notFound, MemStorage.blank) :=
  ⟨by with_unfolding_all decide,
   C3_createBooking_failure_semantics.1 MemStorage.blank 7 1 "2024-06-01"
     ⟨9, 0⟩ 1 50 (by with_unfolding_all decide)⟩

/-- C4: every successful `POST /api/bookings` persists a booking with status
CONFIRMED, end time equal to the start time plus the duration in hours (clock
addition wrapping within the day, as the handler renders it), and total price
equal to the found spot's hourly price times the duration; concretely the
10:00 two-hour booking on seeded spot 1 (priced 3.0/hr) is CONFIRMED with
end time 12:00 and total price 6.0. -/
theorem C4_createBooking_success_postcondition :
    (∀ s : MemStorage, ∀ u spotId : Nat, ∀ date : String, ∀ st : HM,
      ∀ d now : Nat, ∀ b : Booking, ∀ s2 : MemStorage,
      createBookingRoute s u spotId date st d now =
        (CreateResult.created b, s2) →
      b.status = BookingStatus.CONFIRMED ∧
      b.endTime = st.addHours d ∧
      ∃ spot, s.getParkingSpot spotId = some spot ∧
        b.totalPrice = spot.pricePerHour * (d : ℚ)) ∧
    (bookA1.1.createdBooking.map
        (fun b => (b.totalPrice, b.endTime, b.status)) =
      some (6, ⟨12, 0⟩, BookingStatus.CONFIRMED)) := by
  constructor
  · intro s u spotId date st d now b s2 h
    obtain ⟨spot, hspot, _, hb, _⟩ := createBookingRoute_created h
    subst hb
    exact ⟨rfl, rfl, spot, hspot, rfl⟩
  · with_unfolding_all decide

/-- Closed instance of C4 at the 10:00 two-hour booking on seeded spot 1. -/
theorem C4_createBooking_success_postcondition_witness :
    createBookingRoute seededStorage 1 1 "2024-06-01" ⟨10, 0⟩ 2 100 =
        (CreateResult.created bookA1b, bookA1.2) ∧
      (bookA1b.status = BookingStatus.CONFIRMED ∧
       bookA1b.endTime = HM.addHours ⟨10, 0⟩ 2 ∧
       ∃ spot, seededStorage.getParkingSpot 1 = some spot ∧
         bookA1b.totalPrice = spot.pricePerHour * ((2 : Nat) : ℚ)) :=
  ⟨by with_unfolding_all decide,
   C4_createBooking_success_postcondition.1 seededStorage 1 1 "2024-06-01"
     ⟨10, 0⟩ 2 100 bookA1b bookA1.2 (by with_unfolding_all decide)⟩

/-- C5: for an existing booking, `DELETE /api/bookings/:id` returns FORBIDDEN
when the requester neither owns the booking nor is admin; when authorized but
the booking is already COMPLETED or CANCELLED it returns INVALID_STATE
carrying the current status; in particular cancelling an already-CANCELLED
booking returns INVALID_STATE with status CANCELLED.  Every one of these
outcomes returns the store unchanged. -/
theorem C5_cancelBooking_error_semantics :
    (∀ s : MemStorage, ∀ id reqId : Nat, ∀ adm : Bool, ∀ b : Booking,
      s.bookings.find? (fun x => x.id == id) = some b →
      b.userId ≠ reqId → adm = false →
      cancelBookingRoute s id reqId adm = (CancelResult.forbidden, s)) ∧
    (∀ s : MemStorage, ∀ id reqId : Nat, ∀ adm : Bool, ∀ b : Booking,
      s.bookings.find? (fun x => x.id == id) = some b →
      (b.userId = reqId ∨ adm = true) →
      (b.status = BookingStatus.COMPLETED ∨
        b.status = BookingStatus.CANCELLED) →
      cancelBookingRoute s id reqId adm =
        (CancelResult.invalidState b.status, s)) ∧
    (∀ s : MemStorage, ∀ id reqId : Nat, ∀ adm : Bool, ∀ b : Booking,
      s.bookings.find? (fun x => x.id == id) = some b →
      (b.userId = reqId ∨ adm = true) →
      b.status = BookingStatus.CANCELLED →
      cancelBookingRoute s id reqId adm =
        (CancelResult.invalidState BookingStatus.CANCELLED, s)) := by
  have h2 : ∀ s : MemStorage, ∀ id reqId : Nat, ∀ adm : Bool, ∀ b : Booking,
      s.bookings.find? (fun x => x.id == id) = some b →
      (b.userId = reqId ∨ adm = true) →
      (b.status = BookingStatus.COMPLETED ∨
        b.status = BookingStatus.CANCELLED) →
      cancelBookingRoute s id reqId adm =
        (CancelResult.invalidState b.status, s) := by
    intro s id reqId adm b hfind hauth hterm
    unfold cancelBookingRoute
    rw [hfind]
    dsimp only
    have hc1 : (b.userId != reqId && !adm) = false := by
      rcases hauth with h | h
      · simp [h]
      · simp [h]
    have hc2 : (b.status == BookingStatus.COMPLETED ||
        b.status == BookingStatus.CANCELLED) = true := by
      rcases hterm with h | h <;> simp [h]
    rw [hc1, hc2]
    rfl
  refine ⟨?_, h2, ?_⟩
  · intro s id reqId adm b hfind howner hadm
    unfold cancelBookingRoute
    rw [hfind]
    dsimp only
    have hc1 : (b.userId != reqId && !adm) = true := by
      subst hadm
      simp [howner]
    rw [hc1]
    rfl
  · intro s id reqId adm b hfind hauth hcanc
    have := h2 s id reqId adm b hfind hauth (Or.inr hcanc)
    rwa [hcanc] at this

/-- Closed instance of C5: cancelling the already-cancelled booking again is
rejected with INVALID_STATE (CANCELLED) and leaves the store unchanged. -/
theorem C5_cancelBooking_error_semantics_witness :
    cancelA1.2.bookings.find? (fun x => x.id == 1) = some bookA1c ∧
      bookA1c.status = BookingStatus.CANCELLED ∧
      cancelBookingRoute cancelA1.2 1 1 false =
        (CancelResult.invalidState BookingStatus.CANCELLED, cancelA1.2) :=
  ⟨by with_unfolding_all decide, by with_unfolding_all decide,
   C5_cancelBooking_error_semantics.2.2 cancelA1.2 1 1 false bookA1c
     (by with_unfolding_all decide) (Or.inl (by with_unfolding_all decide))
     (by with_unfolding_all decide)⟩

/-- C6: a successful cancellation is a soft delete: the store afterwards
holds the same users, the same spots and the same number of booking records;
the targeted booking reappears with status CANCELLED and every other field
(id, userId, spotId, date, startTime, endTime, duration, totalPrice,
createdAt) unchanged, and every other booking reappears verbatim. -/
theorem C6_cancel_soft_delete_frame (s : MemStorage) (id reqId : Nat)
    (adm : Bool) (s2 : MemStorage)
    (h : cancelBookingRoute s id reqId adm = (CancelResult.ok, s2)) :
    (∃ b ∈ s.bookings, b.id = id) ∧
    s2.users = s.users ∧
    s2.parkingSpots = s.parkingSpots ∧
    s2.bookings.length = s.bookings.length ∧
    (∀ b ∈ s.bookings, b.id = id →
      { b with status := BookingStatus.CANCELLED } ∈ s2.bookings) ∧
    (∀ b ∈ s.bookings, b.id ≠ id → b ∈ s2.bookings) := by
  obtain ⟨hex, hs2⟩ := cancelBookingRoute_ok h
  subst hs2
  unfold MemStorage.updateBookingStatus
  refine ⟨hex, rfl, rfl, by simp, ?_, ?_⟩
  · intro b hb hid
    have heq : ({ b with status := BookingStatus.CANCELLED } : Booking) =
        (fun x => if x.id == id then
          { x with status := BookingStatus.CANCELLED } else x) b := by
      simp [hid]
    rw [heq]
    exact List.mem_map_of_mem _ hb
  · intro b hb hid
    have heq : b = (fun x => if x.id == id then
        { x with status := BookingStatus.CANCELLED } else x) b := by
      simp [hid]
    rw [heq]
    exact List.mem_map_of_mem _ hb

/-- Closed instance of C6 at the cancellation of the 10:00 booking. -/
theorem C6_cancel_soft_delete_frame_witness :
    cancelBookingRoute bookA1.2 1 1 false = (CancelResult.ok, cancelA1.2) ∧
      ((∃ b ∈ bookA1.2.bookings, b.id = 1) ∧
       cancelA1.2.users = bookA1.2.users ∧
       cancelA1.2.parkingSpots = bookA1.2.parkingSpots ∧
       cancelA1.2.bookings.length = bookA1.2.bookings.length ∧
       (∀ b ∈ bookA1.2.bookings, b.id = 1 →
         { b with status := BookingStatus.CANCELLED } ∈ cancelA1.2.bookings) ∧
       (∀ b ∈ bookA1.2.bookings, b.id ≠ 1 → b ∈ cancelA1.2.bookings)) :=
  ⟨by with_unfolding_all decide,
   C6_cancel_soft_delete_frame bookA1.2 1 1 false cancelA1.2
     (by with_unfolding_all decide)⟩

/-- C7 counterexample: the round-trip exclusion fails as universally stated.
Booking seeded spot 1 from 23:00 for two hours succeeds (the stored end time
wraps to 01:00), yet the availability query for the very same date and window
still returns spot 1; a zero-duration 10:00 booking likewise succeeds and is
not excluded from its own window. -/
theorem C7_round_trip_counterexample :
    book23.1.createdBooking.isSome = true ∧
    (getAvailableParkingSpots book23.2 "2024-06-01" ⟨23, 0⟩ 2).any
      (fun sp => sp.id == 1) = true ∧
    book0.1.createdBooking.isSome = true ∧
    (getAvailableParkingSpots book0.2 "2024-06-01" ⟨10, 0⟩ 0).any
      (fun sp => sp.id == 1) = true := by
  with_unfolding_all decide

/-- C7 (amended): after a successful `createBooking`, (a) provided the
duration is positive and the requested window stays within the day
(start hour + duration < 24), re-querying availability for the same date and
window excludes the booked spot; and (b) a query for a window on the same
date that does not overlap the created booking's stored interval — e.g. one
starting exactly at its end time — returns the spot, provided its
administrative flag is true and no other non-cancelled booking for it on
that date overlaps the queried window. -/
theorem C7_round_trip_amended (s : MemStorage) (u spotId : Nat)
    (date : String) (st : HM) (d now : Nat) (b : Booking) (s2 : MemStorage)
    (h : createBookingRoute s u spotId date st d now =
      (CreateResult.created b, s2)) :
    (0 < d → st.hours.val + d < 24 →
      ∀ sp ∈ getAvailableParkingSpots s2 date st d, sp.id ≠ spotId) ∧
    (∀ st2 : HM, ∀ d2 : Nat, ∀ sp : ParkingSpot,
      sp ∈ s.parkingSpots → sp.id = spotId → sp.isAvailable = true →
      ¬ hmOverlap st2.toMin (st2.toMin + 60 * d2)
          b.startTime.toMin b.endTime.toMin →
      (∀ b2 ∈ s.bookings, b2.spotId = spotId → b2.date = date →
        b2.status ≠ BookingStatus.CANCELLED →
        ¬ hmOverlap st2.toMin (st2.toMin + 60 * d2)
            b2.startTime.toMin b2.endTime.toMin) →
      sp ∈ getAvailableParkingSpots s2 date st2 d2) := by
  obtain ⟨spot, hspot, _, hb, hs2⟩ := createBookingRoute_created h
  constructor
  · intro hd hlt sp hsp hideq
    have hmem := mem_getAvailableParkingSpots.mp hsp
    have hbmem : b ∈ s2.bookings := by
      rw [hs2]
      exact List.mem_append_right _ (List.mem_singleton.mpr rfl)
    have hbspot : b.spotId = sp.id := by rw [hb]; exact hideq.symm
    have hbdate : b.date = date := by rw [hb]
    have hbstat : b.status ≠ BookingStatus.CANCELLED := by
      rw [hb]; intro hc; exact BookingStatus.noConfusion hc
    have hno := hmem.2.2 b hbmem hbspot hbdate hbstat
    apply hno
    have hstart : b.startTime = st := by rw [hb]
    have hend : b.endTime.toMin = st.toMin + 60 * d := by
      rw [hb]; exact addHours_toMin_eq st d hlt
    constructor
    · rw [hend]; omega
    · rw [hstart]; omega
  · intro st2 d2 sp hspmem hid hflag hnb hold
    apply mem_getAvailableParkingSpots.mpr
    refine ⟨?_, hflag, ?_⟩
    · rw [hs2]; exact hspmem
    · intro b2 hb2 hbsp hbdate hbstat
      rw [hs2] at hb2
      dsimp only at hb2
      rw [List.mem_append] at hb2
      rcases hb2 with hb2 | hb2
      · exact hold b2 hb2 (by rw [← hid]; exact hbsp) hbdate hbstat
      · rw [List.mem_singleton] at hb2
        subst hb2
        exact hnb

/-- Closed instance of amended C7: after the 10:00 two-hour booking, the
same-window query excludes spot 1. -/
theorem C7_round_trip_amended_witness :
    createBookingRoute seededStorage 1 1 "2024-06-01" ⟨10, 0⟩ 2 100 =
        (CreateResult.created bookA1b, bookA1.2) ∧
      (∀ sp ∈ getAvailableParkingSpots bookA1.2 "2024-06-01" ⟨10, 0⟩ 2,
        sp.id ≠ 1) :=
  ⟨by with_unfolding_all decide,
   (C7_round_trip_amended seededStorage 1 1 "2024-06-01" ⟨10, 0⟩ 2 100
       bookA1b bookA1.2 (by with_unfolding_all decide)).1
     (by decide) (by decide)⟩

/-- C8: the dashboard's `revenueToday` is exactly the sum of `totalPrice`
over the bookings dated today whose status is not CANCELLED; concretely,
with one CONFIRMED booking priced 6.0 and one CANCELLED booking priced 9.0
today, it is exactly 6.0. -/
theorem C8_revenue_today :
    (∀ s : MemStorage, ∀ today : String,
      (getDashboardStats s today).revenueToday =
        ((s.bookings.filter fun b =>
            b.date == today && b.status != BookingStatus.CANCELLED).map
          (fun b => b.totalPrice)).sum) ∧
    (getDashboardStats demoStore "2024-06-01").revenueToday = 6 := by
  constructor
  · intro s today
    unfold getDashboardStats
    dsimp only
    rw [List.sum_eq_foldl]
  · with_unfolding_all decide

/-- C9: the storage-level `createBooking` validates nothing: for every insert
record and store state it assigns the next counter value as id, appends the
record verbatim and bumps the counter, touching nothing else — even when the
inserted interval overlaps an existing CONFIRMED booking on the same spot and
date (the resulting store violates the no-overlap invariant), and even when
the referenced user and spot do not exist. -/
theorem C9_storage_createBooking_unchecked :
    (∀ s : MemStorage, ∀ d : InsertBooking, ∀ now : Nat,
      (s.createBooking d now).1 =
        { id := s.bookingIdCounter, userId := d.userId, spotId := d.spotId
        , date := d.date, startTime := d.startTime, endTime := d.endTime
        , duration := d.duration, totalPrice := d.totalPrice
        , status := d.status, createdAt := now } ∧
      (s.createBooking d now).2.bookings =
        s.bookings ++ [(s.createBooking d now).1] ∧
      (s.createBooking d now).2.users = s.users ∧
      (s.createBooking d now).2.parkingSpots = s.parkingSpots ∧
      (s.createBooking d now).2.bookingIdCounter = s.bookingIdCounter + 1) ∧
    ((bookA1.2.createBooking
        ⟨1, 1, "2024-06-01", ⟨11, 0⟩, ⟨12, 0⟩, 1, 3,
          BookingStatus.CONFIRMED⟩ 200).2.bookings.length = 2 ∧
      ¬ NoOverlapInv (bookA1.2.createBooking
        ⟨1, 1, "2024-06-01", ⟨11, 0⟩, ⟨12, 0⟩, 1, 3,
          BookingStatus.CONFIRMED⟩ 200).2) ∧
    ((seededStorage.createBooking
        ⟨999, 999, "2024-06-01", ⟨10, 0⟩, ⟨11, 0⟩, 1, 3,
          BookingStatus.CONFIRMED⟩ 300).2.bookings.length = 1 ∧
      seededStorage.getUser 999 = none ∧
      seededStorage.getParkingSpot 999 = none) := by
  refine ⟨?_, ?_, ?_⟩
  · intro s d now
    exact ⟨rfl, rfl, rfl, rfl, rfl⟩
  · with_unfolding_all decide
  · with_unfolding_all decide

/-- `addHours` by zero is the identity on well-formed clock times. -/
theorem addHours_zero (t : HM) : t.addHours 0 = t := by
  unfold HM.addHours
  obtain ⟨⟨h, hh⟩, m⟩ := t
  simp [Nat.mod_eq_of_lt hh]

/-- C10: the public interface never checks that the duration is positive —
no request is rejected by input validation — and a zero-duration request on
an existing administratively-available spot with no bookings succeeds,
creating a CONFIRMED booking whose end time equals its start time and whose
total price is 0. -/
theorem C10_zero_duration_booking :
    (∀ s : MemStorage, ∀ u spotId : Nat, ∀ date : String, ∀ st : HM,
      ∀ d now : Nat,
      (createBookingRoute s u spotId date st d now).1 ≠
        CreateResult.validationError) ∧
    (∀ s : MemStorage, ∀ u spotId : Nat, ∀ date : String, ∀ st : HM,
      ∀ now : Nat, ∀ spot : ParkingSpot,
      s.getParkingSpot spotId = some spot → spot.isAvailable = true →
      (∀ b ∈ s.bookings, b.spotId ≠ spotId) →
      ∃ b s2, createBookingRoute s u spotId date st 0 now =
          (CreateResult.created b, s2) ∧
        b.status = BookingStatus.CONFIRMED ∧ b.startTime = st ∧
        b.endTime = st ∧ b.totalPrice = 0) ∧
    (book0.1.createdBooking.map
        (fun b => (b.totalPrice, b.startTime, b.endTime, b.status)) =
      some (0, ⟨10, 0⟩, ⟨10, 0⟩, BookingStatus.CONFIRMED)) := by
  refine ⟨?_, ?_, ?_⟩
  · intro s u spotId date st d now
    unfold createBookingRoute
    simp only [validateBookingInput, if_true]
    cases hfind : s.getParkingSpot spotId with
    | none => simp
    | some spot =>
      dsimp only
      by_cases hav : (getAvailableParkingSpots s date st d).any
          (fun sp => sp.id == spotId) = true
      · rw [if_pos hav]; simp
      · rw [if_neg hav]; simp
  · intro s u spotId date st now spot hspot hflag hnone
    have hspmem : spot ∈ s.parkingSpots := List.mem_of_find?_eq_some hspot
    have hspid : spot.id = spotId := by
      have := List.find?_some hspot
      simpa using this
    have hmem : spot ∈ getAvailableParkingSpots s date st 0 := by
      apply mem_getAvailableParkingSpots.mpr
      refine ⟨hspmem, hflag, ?_⟩
      intro b hb hbsp
      exact (hnone b hb (hbsp.trans hspid)).elim
    have hany : (getAvailableParkingSpots s date st 0).any
        (fun sp => sp.id == spotId) = true := by
      rw [List.any_eq_true]
      exact ⟨spot, hmem, by simp [hspid]⟩
    refine ⟨_, _, createBookingRoute_success hspot hany, ?_, ?_, ?_, ?_⟩
    · rfl
    · rfl
    · show (HM.addHours st 0) = st
      exact addHours_zero st
    · show spot.pricePerHour * ((0 : Nat) : ℚ) = 0
      simp
  · with_unfolding_all decide

/-- Closed instance of C10 at seeded spot 1 with a zero-duration request. -/
theorem C10_zero_duration_booking_witness :
    seededStorage.getParkingSpot 1 = some spotA1 ∧
      spotA1.isAvailable = true ∧
      (∀ b ∈ seededStorage.bookings, b.spotId ≠ 1) ∧
      ∃ b s2, createBookingRoute seededStorage 9 1 "2024-06-01" ⟨10, 0⟩ 0 100 =
          (CreateResult.created b, s2) ∧
        b.status = BookingStatus.CONFIRMED ∧ b.startTime = ⟨10, 0⟩ ∧
        b.endTime = ⟨10, 0⟩ ∧ b.totalPrice = 0 :=
  ⟨by with_unfolding_all decide, by with_unfolding_all decide,
   by with_unfolding_all decide,
   C10_zero_duration_booking.2.1 seededStorage 9 1 "2024-06-01" ⟨10, 0⟩ 100
     spotA1 (by with_unfolding_all decide) (by with_unfolding_all decide)
     (by with_unfolding_all decide)⟩
